import Mathlib

/-!
Verification of the transform-and-load pipeline in
`.github/workflows/data_process.py` (JapanMaaS).

The script loads per-entity-type Parquet files into DuckDB tables
`raw_railway`, `raw_station`, `raw_stops` (printing a warning and creating
no table for any file that is absent), transforms them with two
`CREATE OR REPLACE TABLE` statements into `final_routes` and
`final_stops_maas`, and then serializes `TRUNCATE` + `INSERT` statements for
the tables `stops_maas` and `routes` (in that order) into one
`BEGIN; ... COMMIT;` script.

The embedding below follows that source line by line:
  * `Value`, `pyStr` and `serializeValue` model the Python row values and
    the serializer expression, which wraps a string value in single quotes
    verbatim and renders every other value with the builtin str function;
  * `substringFromPattern` models `SUBSTRING("owl:sameAs" FROM "[^.]+$")`
    under DuckDB.  DuckDB has no regex form of SUBSTRING (that is a
    PostgreSQL extension; regex extraction in DuckDB is regexp_extract):
    its substring takes a numeric start position, so the binder resolves
    the call as substring(VARCHAR, BIGINT) and wraps the pattern literal
    in a cast to BIGINT, and evaluating that cast fails with a conversion
    error.  The expression therefore never yields an identifier, and any
    query that evaluates it on a row aborts;
  * `classifyOperator` models the CASE expression over `"odpt:operator"`
    (SQL LIKE is case-sensitive; a NULL operator matches no pattern and
    falls to the ELSE branch);
  * `routesRowDuck`, `stationRowDuck`, `busstopRowDuck`, `final_routes`
    and `final_stops_maas` model the two transformation queries: each
    SELECT list is recorded in the success branch, but the id expression
    errors on every row it is evaluated on, so only an empty source table
    lets a query complete;
  * `generate_insert_sql` and `final_sql_statements` model the statement
    generation, and `transformPipeline` models the whole run: a query that
    reads a raw table which was never created (because its Parquet file
    was missing) raises an uncaught DuckDB catalog error, and a query over
    a present, nonempty raw table raises the conversion error, so the run
    aborts.
-/

/-- A scalar value of a row fetched from DuckDB into Python:
a string, an integer, a boolean, or the Python value None (SQL NULL). -/
inductive Value
  | vstr (s : String)
  | vint (n : Int)
  | vbool (b : Bool)
  | vnone
  deriving DecidableEq

/-- Python str(v): strings render as themselves, integers in decimal,
booleans as True or False, and None as the four letters None. -/
def pyStr : Value → String
  | .vstr s => s
  | .vint n => toString n
  | .vbool true => "True"
  | .vbool false => "False"
  | .vnone => "None"

/-- The serializer inside generate_insert_sql: a string value is wrapped in
single quotes with its contents emitted verbatim (no escaping of interior
quotes); every other value is emitted as its plain str form, unquoted. -/
def serializeValue (v : Value) : String :=
  match v with
  | .vstr s => "\x27" ++ s ++ "\x27"
  | _ => pyStr v

/-- A destination row: the flat tuple fetched by fetchall. -/
abbrev Row := List Value

/-- The serialized values of a row joined with a comma and a space. -/
def valuesStr (row : Row) : String :=
  String.intercalate ", " (row.map serializeValue)

/-- The INSERT statement the script emits for one row of one table. -/
def insertStmt (table : String) (row : Row) : String :=
  "INSERT INTO " ++ table ++ " VALUES (" ++ valuesStr row ++ ");"

/-- The TRUNCATE statement the script emits at the head of each table. -/
def truncateStmt (table : String) : String :=
  "TRUNCATE TABLE public.\"" ++ table ++ "\" RESTART IDENTITY CASCADE;"

/-- The statement list of generate_insert_sql: the TRUNCATE statement
followed by one INSERT statement per fetched row. -/
def generate_insert_sql (table : String) (rows : List Row) : List String :=
  truncateStmt table :: rows.map (insertStmt table)

/-- Does the pattern occur at the head of the character list? -/
def matchesAt : List Char → List Char → Bool
  | [], _ => true
  | _ :: _, [] => false
  | a :: as, b :: bs => a == b && matchesAt as bs

/-- Does the pattern occur anywhere in the character list?  This is the
containment test of SQL LIKE with the pattern between two percent signs,
and of the Python membership test on strings. -/
def containsChars (pat : List Char) : List Char → Bool
  | [] => pat.isEmpty
  | c :: cs => matchesAt pat (c :: cs) || containsChars pat cs

/-- Substring containment on strings (case-sensitive, as SQL LIKE is). -/
def containsSubstr (s pat : String) : Bool :=
  containsChars pat.data s.data

/-- Case-insensitive substring containment: what the words of the spec,
"in any letter case", describe.  SQL would need ILIKE for this. -/
def containsCI (s pat : String) : Bool :=
  containsChars (pat.data.map Char.toLower) (s.data.map Char.toLower)

/-- The CASE expression of the routes query over the operator column
(NULL when absent): LIKE percent-JR-percent, then LIKE percent-Toei-percent,
then ELSE.  SQL LIKE is case-sensitive, and a NULL operand satisfies
neither branch. -/
def classifyOperator (op : Option String) : String :=
  match op with
  | none => "OP_OTHER"
  | some s =>
    if containsSubstr s "JR" then "OP_JR_EAST"
    else if containsSubstr s "Toei" then "OP_TOEI"
    else "OP_OTHER"

/-- One row of raw_railway: the columns the routes query reads.  The
operator field is an Option because the Parquet column may hold NULL. -/
structure RailwayRecord where
  sameAs : String
  operator : Option String
  lineCode : Value
  railwayTitle : Value
  deriving DecidableEq

/-- One row of raw_station: the columns the station projection reads. -/
structure StationRecord where
  sameAs : String
  stationTitle : Value
  lat : Value
  lon : Value
  deriving DecidableEq

/-- One row of raw_stops: the columns the bus-stop projection reads. -/
structure BusstopRecord where
  sameAs : String
  busstopPoleTitle : Value
  lat : Value
  lon : Value
  deriving DecidableEq

/-- An uncaught DuckDB error raised while a query executes: either the
catalog error for a raw table which was never created, or the conversion
error raised when the SUBSTRING pattern literal is cast to BIGINT. -/
inductive PipelineError
  | missingTable (name : String)
  | conversionError (pattern : String)
  deriving DecidableEq

/-- Evaluation, on one row, of the id expression both queries use:
SUBSTRING of the sameAs column FROM the pattern dollar-anchored [^.]+ .
DuckDB has no regex form of SUBSTRING — its substring takes a numeric
start position, and regex extraction is the separate function
regexp_extract — so the call resolves as substring(VARCHAR, BIGINT) with
the pattern literal cast to BIGINT, and evaluating that cast on a row
fails with a conversion error.  The expression never yields an
identifier.  (The comment in the source, odpt.Railway:JR-East.ChuoRapid
-> ChuoRapid, documents the intended extraction; the syntax used is the
PostgreSQL one and does not do this under DuckDB.) -/
def substringFromPattern (_s : String) : Except PipelineError String :=
  .error (.conversionError "[^.]+$")

/-- One row of the routes query.  The SELECT list
(id, operator_id, route_short_name, route_long_name, 2 as route_type) is
recorded in the success branch, but the id expression errors first on
every row, so the success branch is never reached. -/
def routesRowDuck (r : RailwayRecord) : Except PipelineError Row :=
  match substringFromPattern r.sameAs with
  | .error e => .error e
  | .ok i =>
    .ok [Value.vstr i, Value.vstr (classifyOperator r.operator),
         r.lineCode, r.railwayTitle, Value.vint 2]

/-- One row of the station projection of the stops query.  The SELECT
list (id, name, latitude, longitude, 1 as location_type) takes the name
from the stationTitle column, but the id expression errors first. -/
def stationRowDuck (r : StationRecord) : Except PipelineError Row :=
  match substringFromPattern r.sameAs with
  | .error e => .error e
  | .ok i => .ok [Value.vstr i, r.stationTitle, r.lat, r.lon, Value.vint 1]

/-- One row of the bus-stop projection of the stops query.  The SELECT
list (id, name, latitude, longitude, 0 as location_type) takes the name
from the busstopPoleTitle column, but the id expression errors first. -/
def busstopRowDuck (r : BusstopRecord) : Except PipelineError Row :=
  match substringFromPattern r.sameAs with
  | .error e => .error e
  | .ok i => .ok [Value.vstr i, r.busstopPoleTitle, r.lat, r.lon, Value.vint 0]

/-- Row-by-row evaluation of a projection over a raw table: the first
erroring row aborts the whole query.  Over an empty table the expressions
are never evaluated and the query completes with no rows — which is why a
run whose present tables are all empty is reported failing on the first
genuinely missing raw table instead. -/
def mapRows {α : Type} (f : α → Except PipelineError Row) :
    List α → Except PipelineError (List Row)
  | [] => .ok []
  | x :: xs =>
    match f x with
    | .error e => .error e
    | .ok row =>
      match mapRows f xs with
      | .error e => .error e
      | .ok rows => .ok (row :: rows)

/-- The CREATE of final_routes: the routes query applied to every row of
raw_railway.  The query has no WHERE clause, so no row is filtered out —
and on any nonempty raw_railway it aborts with the conversion error of
the id expression. -/
def final_routes (rs : List RailwayRecord) : Except PipelineError (List Row) :=
  mapRows routesRowDuck rs

/-- The CREATE of final_stops_maas: the station projection UNION ALL the
bus-stop projection, stations first.  On any nonempty raw_station or
raw_stops it aborts with the conversion error of the id expression. -/
def final_stops_maas (sts : List StationRecord) (bs : List BusstopRecord) :
    Except PipelineError (List Row) :=
  match mapRows stationRowDuck sts with
  | .error e => .error e
  | .ok srows =>
    match mapRows busstopRowDuck bs with
    | .error e => .error e
    | .ok brows => .ok (srows ++ brows)

/-- The list final_sql_statements: the loop over the table list
stops_maas-then-routes extends the list with generate_insert_sql of each
table in that order. -/
def final_sql_statements (stopsRows routesRows : List Row) : List String :=
  generate_insert_sql "stops_maas" stopsRows ++ generate_insert_sql "routes" routesRows

/-- Which per-entity-type Parquet files exist under the output directory,
and the rows they hold.  A none models an absent file: the load loop then
only prints a warning and creates no raw table for it. -/
structure InputFiles where
  railway : Option (List RailwayRecord)
  station : Option (List StationRecord)
  stops : Option (List BusstopRecord)

/-- The function transform_to_custom_schema as run by the script (the main
guard calls it directly: script-export mode).  The load loop creates a raw
table for each present file.  The final_routes query then runs first: its
binder resolves the FROM clause, so an absent raw_railway is an uncaught
catalog error; with raw_railway present the query executes and aborts on
the first row with the conversion error of the id expression (an empty
raw_railway completes with no rows).  The final_stops_maas query behaves
the same over raw_station and then raw_stops.  Only when every query
completes — which requires every present table it evaluates to be empty —
is the statement list generated (the file written additionally carries a
timestamp header and the BEGIN and COMMIT lines around precisely these
statements). -/
def transformPipeline (inp : InputFiles) : Except PipelineError (List String) :=
  match inp.railway with
  | none => .error (.missingTable "raw_railway")
  | some rws =>
    match final_routes rws with
    | .error e => .error e
    | .ok routesRows =>
      match inp.station with
      | none => .error (.missingTable "raw_station")
      | some sts =>
        match inp.stops with
        | none => .error (.missingTable "raw_stops")
        | some bs =>
          match final_stops_maas sts bs with
          | .error e => .error e
          | .ok stopsRows => .ok (final_sql_statements stopsRows routesRows)

/-- Doubling of every interior single quote: the standard SQL escape. -/
def escChars : List Char → List Char
  | [] => []
  | c :: cs => if c = '\x27' then '\x27' :: '\x27' :: escChars cs else c :: escChars cs

/-- Spec-side serializer for strings: single-quoted with every interior
single quote escaped by doubling, so that the statement stays
well-formed. -/
def escapedSerialize (s : String) : String :=
  "\x27" ++ String.mk (escChars s.data) ++ "\x27"

/-- An abstract load statement: the TRUNCATE directive or one INSERT row. -/
inductive Stmt
  | truncate
  | insert (row : Row)
  deriving DecidableEq

/-- The LoadUnit of one table: its TRUNCATE followed by its INSERT
sequence. -/
def loadUnit (rows : List Row) : List Stmt :=
  Stmt.truncate :: rows.map Stmt.insert

/-- Rendering an abstract statement to the SQL text the script emits. -/
def stmtToSql (table : String) : Stmt → String
  | .truncate => truncateStmt table
  | .insert row => insertStmt table row

/-- Table contents as a multiset of rows (a table scan is order-blind). -/
abbrev TableState := Multiset Row

/-- Executing one load statement against a table: TRUNCATE empties it,
INSERT adds one row. -/
def applyStmt (t : TableState) : Stmt → TableState
  | .truncate => 0
  | .insert row => row ::ₘ t

/-- Executing a statement sequence left to right. -/
def applyStmts (t : TableState) (u : List Stmt) : TableState :=
  u.foldl applyStmt t

/-! ### Helper lemmas -/

/-- Helper: folding the INSERT statements of a row list into a table adds
exactly those rows. -/
theorem foldl_inserts (rows : List Row) (t : TableState) :
    (rows.map Stmt.insert).foldl applyStmt t = t + (rows : Multiset Row) := by
  induction rows generalizing t with
  | nil => simp
  | cons r rs ih =>
    simp only [List.map_cons, List.foldl_cons, applyStmt, ih, ← Multiset.cons_coe,
      Multiset.add_cons, Multiset.cons_add]

/-- Helper: executing a LoadUnit against any prior table state leaves
exactly the rows of the unit. -/
theorem applyUnit_eq (rows : List Row) (t : TableState) :
    applyStmts t (loadUnit rows) = (rows : Multiset Row) := by
  simp only [applyStmts, loadUnit, List.foldl_cons, applyStmt, foldl_inserts, zero_add]

/-! ### Claim theorems -/

/-- C1 (counterexample): the Operator Filter retention rule does not hold.
With target-operator token Toei, a railway record whose single operator
string does contain the token — retained, by the claim, and so a
contributor of rows — in fact contributes nothing: the routes query
aborts with the conversion error of its id expression, and the
destination tables receive no rows at all. -/
theorem operator_filter_cex :
    containsSubstr "odpt.Operator:Toei" "Toei" = true ∧
    final_routes [⟨"odpt.Railway:Toei.Asakusa", some "odpt.Operator:Toei",
        Value.vnone, Value.vnone⟩] =
      .error (.conversionError "[^.]+$") := by
  constructor
  · decide
  · rfl

/-- C1 (amended): no operator filter exists and no record ever contributes
a destination row: over any nonempty record set the routes query (and,
with any station present, the stops query) aborts with the conversion
error of the id expression, whatever the operator fields hold, so the
retention decision is never taken and the destination tables receive
nothing. -/
theorem no_rows_ever_produced (r : RailwayRecord) (rs : List RailwayRecord)
    (hm : r ∈ rs) (st : StationRecord) (sts : List StationRecord) (hst : st ∈ sts)
    (bs : List BusstopRecord) :
    final_routes rs = .error (.conversionError "[^.]+$") ∧
    final_stops_maas sts bs = .error (.conversionError "[^.]+$") := by
  constructor
  · cases rs with
    | nil => cases hm
    | cons a as => rfl
  · cases sts with
    | nil => cases hst
    | cons a as => rfl

/-- C1 (witness): the amended theorem applied to one-record inputs. -/
theorem no_rows_ever_produced_witness :
    final_routes [⟨"odpt.Railway:Toei.Asakusa", some "odpt.Operator:Toei",
        Value.vnone, Value.vnone⟩] =
      .error (.conversionError "[^.]+$") ∧
    final_stops_maas [⟨"odpt.Station:Toei.Asakusa.Asakusa",
        Value.vstr "Asakusa Station", Value.vnone, Value.vnone⟩] [] =
      .error (.conversionError "[^.]+$") :=
  no_rows_ever_produced
    ⟨"odpt.Railway:Toei.Asakusa", some "odpt.Operator:Toei", Value.vnone, Value.vnone⟩
    _ (by simp)
    ⟨"odpt.Station:Toei.Asakusa.Asakusa", Value.vstr "Asakusa Station",
      Value.vnone, Value.vnone⟩
    _ (by simp) []

/-- C2 (code bug): a missing per-entity-type input file is fatal, not a
skip-with-warning.  When any one of the three Parquet files is absent, the
corresponding raw table is never created, the unconditional transformation
query that reads it raises an uncaught catalog error, and the run produces
no output script at all. -/
theorem missing_input_fatal :
    transformPipeline ⟨none, some [], some []⟩ =
      .error (.missingTable "raw_railway") ∧
    transformPipeline ⟨some [], none, some []⟩ =
      .error (.missingTable "raw_station") ∧
    transformPipeline ⟨some [], some [], none⟩ =
      .error (.missingTable "raw_stops") :=
  ⟨rfl, rfl, rfl⟩

/-- C3 (counterexample): identifier extraction does not behave as the
claim says on a record whose sameAs URI has no dot, because it fails
identically on every record: both the dotless URI and a URI with dots
make the routes query abort with the same conversion error.  There is no
per-record exclusion — the whole transformation aborts, so no transformer
output exists in which anything could be counted or surfaced. -/
theorem dotless_uri_cex :
    '.' ∉ "JRChuoRapid".data ∧
    final_routes [⟨"JRChuoRapid", some "odpt.Operator:JR-East",
        Value.vnone, Value.vnone⟩] =
      .error (.conversionError "[^.]+$") ∧
    final_routes [⟨"odpt.Railway:Toei.Oedo", some "odpt.Operator:Toei",
        Value.vnone, Value.vnone⟩] =
      .error (.conversionError "[^.]+$") := by
  refine ⟨by decide, rfl, rfl⟩

/-- C3 (amended): identifier extraction fails for every record, with or
without a dot in its URI — the substring expression itself errors under
DuckDB — and the failure is not a per-record exclusion but aborts the
whole query, so no rows are produced and nothing is counted or surfaced
in the run output. -/
theorem extraction_always_fails (r : RailwayRecord) (st : StationRecord)
    (b : BusstopRecord) :
    substringFromPattern r.sameAs = .error (.conversionError "[^.]+$") ∧
    routesRowDuck r = .error (.conversionError "[^.]+$") ∧
    stationRowDuck st = .error (.conversionError "[^.]+$") ∧
    busstopRowDuck b = .error (.conversionError "[^.]+$") :=
  ⟨rfl, rfl, rfl, rfl⟩

/-- C4 (counterexample): operator classification is not case-insensitive.
The operator string jr-east contains JR in a different letter case (the
case-insensitive containment test holds), yet LIKE is case-sensitive and
classifies it OP_OTHER, while the differently-cased JR-east is classified
OP_JR_EAST — so the result does change when the letter case changes. -/
theorem operator_case_sensitivity_cex :
    containsCI "jr-east" "JR" = true ∧
    classifyOperator (some "jr-east") = "OP_OTHER" ∧
    classifyOperator (some "jr-east") ≠ "OP_JR_EAST" ∧
    classifyOperator (some "JR-east") = "OP_JR_EAST" := by
  refine ⟨by decide, by decide, by decide, by decide⟩

/-- C4 (amended): operator_id is determined by a case-sensitive,
first-match-wins ordered rule list over the operator string: if it
contains JR in exactly that letter case the result is OP_JR_EAST;
otherwise, if it contains Toei in exactly that letter case, OP_TOEI;
otherwise OP_OTHER (also when the operator column is NULL). -/
theorem classify_first_match_case_sensitive (s : String) :
    (containsSubstr s "JR" = true → classifyOperator (some s) = "OP_JR_EAST") ∧
    (containsSubstr s "JR" = false → containsSubstr s "Toei" = true →
      classifyOperator (some s) = "OP_TOEI") ∧
    (containsSubstr s "JR" = false → containsSubstr s "Toei" = false →
      classifyOperator (some s) = "OP_OTHER") ∧
    classifyOperator none = "OP_OTHER" := by
  refine ⟨?_, ?_, ?_, rfl⟩
  · intro h1
    simp [classifyOperator, h1]
  · intro h1 h2
    simp [classifyOperator, h1, h2]
  · intro h1 h2
    simp [classifyOperator, h1, h2]

/-- C4 (witness): the amended theorem applied to three concrete operator
strings, one per rule branch. -/
theorem classify_first_match_case_sensitive_witness :
    classifyOperator (some "odpt.Operator:JR-East") = "OP_JR_EAST" ∧
    classifyOperator (some "odpt.Operator:Toei") = "OP_TOEI" ∧
    classifyOperator (some "odpt.Operator:Keio") = "OP_OTHER" :=
  ⟨(classify_first_match_case_sensitive "odpt.Operator:JR-East").1 (by decide),
   (classify_first_match_case_sensitive "odpt.Operator:Toei").2.1 (by decide) (by decide),
   (classify_first_match_case_sensitive "odpt.Operator:Keio").2.2.1 (by decide) (by decide)⟩

/-- C5 (counterexample): string values are not single-quote-escaped.  A
string containing a single quote is wrapped in quotes verbatim, which
differs from the escaped form, so the emitted statement does not stay
well-formed. -/
theorem quote_escaping_cex :
    serializeValue (Value.vstr "O\x27Hare") = "\x27O\x27Hare\x27" ∧
    serializeValue (Value.vstr "O\x27Hare") ≠ escapedSerialize "O\x27Hare" ∧
    escapedSerialize "O\x27Hare" = "\x27O\x27\x27Hare\x27" := by
  refine ⟨by decide, by decide, by decide⟩

/-- C5 (amended): string values are emitted inside single quotes with their
contents unchanged — interior single quotes are not escaped, so a value
containing one yields a malformed statement — and numeric and boolean
values are emitted unquoted in their plain textual form. -/
theorem string_values_quoted_verbatim (s : String) (n : Int) (b : Bool) :
    serializeValue (Value.vstr s) = "\x27" ++ s ++ "\x27" ∧
    serializeValue (Value.vint n) = toString n ∧
    serializeValue (Value.vbool b) = (if b then "True" else "False") ∧
    insertStmt "routes" [Value.vstr "O\x27Hare", Value.vint 2] =
      "INSERT INTO routes VALUES (\x27O\x27Hare\x27, 2);" := by
  refine ⟨rfl, rfl, ?_, by decide⟩
  cases b <;> rfl

/-- C6: in every emitted statement script the stops LoadUnit strictly
precedes the routes LoadUnit: position i of the statement list holds the
i-th stops statement while i is below the length of the stops unit, and
the routes statements follow from exactly that offset on; in particular
the stops TRUNCATE is the first statement and the routes TRUNCATE sits
right after the last stops INSERT. -/
theorem stops_unit_precedes_routes_unit (sr rr : List Row) :
    (∀ i : Nat, (final_sql_statements sr rr)[i]? =
      if i < (generate_insert_sql "stops_maas" sr).length
      then (generate_insert_sql "stops_maas" sr)[i]?
      else (generate_insert_sql "routes" rr)[i - (generate_insert_sql "stops_maas" sr).length]?) ∧
    (final_sql_statements sr rr)[0]? = some (truncateStmt "stops_maas") ∧
    (final_sql_statements sr rr)[(generate_insert_sql "stops_maas" sr).length]? =
      some (truncateStmt "routes") := by
  refine ⟨fun i => List.getElem?_append, by simp [final_sql_statements, generate_insert_sql], ?_⟩
  show ((generate_insert_sql "stops_maas" sr) ++ (generate_insert_sql "routes" rr))[(generate_insert_sql "stops_maas" sr).length]? = some (truncateStmt "routes")
  rw [List.getElem?_append_right (le_refl _)]
  simp [generate_insert_sql]

/-- C7 (failing input): the stops query never produces the claimed union
rows.  On the scenario records — a station with URI
odpt.Station:Toei.Asakusa.Asakusa and a bus stop with URI
odpt.BusstopPole:Toei.1234 — the final_stops_maas query aborts with the
conversion error of its id expression, so neither the location_type 1 row
nor the location_type 0 row is ever produced, although the SELECT lists
in the source spell out exactly those projections. -/
theorem stops_union_fails :
    final_stops_maas
        [⟨"odpt.Station:Toei.Asakusa.Asakusa", Value.vstr "Asakusa Station",
          Value.vnone, Value.vnone⟩]
        [⟨"odpt.BusstopPole:Toei.1234", Value.vstr "Asakusa Busstop",
          Value.vnone, Value.vnone⟩] =
      .error (.conversionError "[^.]+$") := rfl

/-- C8 (failing input): the routes query never produces the claimed row.
On the scenario record with URI odpt.Railway:JR-East.ChuoRapid and
operator odpt.Operator:JR-East, the id expression errors — although the
comment in the source documents the intended extraction of ChuoRapid from
exactly this URI — so the query aborts and no row with id ChuoRapid,
operator_id OP_JR_EAST and route_type 2 exists. -/
theorem chuo_rapid_fails :
    substringFromPattern "odpt.Railway:JR-East.ChuoRapid" =
      .error (.conversionError "[^.]+$") ∧
    final_routes [⟨"odpt.Railway:JR-East.ChuoRapid", some "odpt.Operator:JR-East",
        Value.vnone, Value.vnone⟩] =
      .error (.conversionError "[^.]+$") :=
  ⟨rfl, rfl⟩

/-- C9: the emitted block of each table is exactly the rendering of its
LoadUnit (TRUNCATE then the INSERT sequence); applying that LoadUnit to an
empty table yields exactly the transformed row multiset, and — because the
unit truncates before inserting and the transformation is a function of
the input — applying it again on top of its own result changes nothing, so
re-running the pipeline on identical input reproduces identical table
contents. -/
theorem load_unit_roundtrip_idempotent (table : String) (rows : List Row)
    (t : TableState) :
    generate_insert_sql table rows = (loadUnit rows).map (stmtToSql table) ∧
    applyStmts 0 (loadUnit rows) = (rows : Multiset Row) ∧
    applyStmts (applyStmts t (loadUnit rows)) (loadUnit rows) =
      applyStmts t (loadUnit rows) := by
  refine ⟨?_, applyUnit_eq rows 0, by rw [applyUnit_eq, applyUnit_eq]⟩
  simp [generate_insert_sql, loadUnit, stmtToSql, List.map_map, Function.comp]

/-- C10: every non-string value is serialized as its plain Python str form
with no quoting; in particular the Python value None (a NULL field) is
written into the INSERT statement as the bare token None — not as the SQL
keyword NULL and not as a quoted string. -/
theorem nonstring_values_bare (v : Value) (h : ∀ s, v ≠ Value.vstr s) :
    serializeValue v = pyStr v ∧
    serializeValue Value.vnone = "None" ∧
    serializeValue Value.vnone ≠ "NULL" ∧
    serializeValue Value.vnone ≠ "\x27None\x27" ∧
    insertStmt "stops_maas" [Value.vstr "1234", Value.vnone] =
      "INSERT INTO stops_maas VALUES (\x271234\x27, None);" := by
  refine ⟨?_, rfl, by decide, by decide, by decide⟩
  cases v with
  | vstr s => exact absurd rfl (h s)
  | vint n => rfl
  | vbool b => rfl
  | vnone => rfl

/-- C10 (witness): the theorem applied to the value None itself. -/
theorem nonstring_values_bare_witness :
    serializeValue Value.vnone = pyStr Value.vnone ∧
    serializeValue Value.vnone = "None" ∧
    serializeValue Value.vnone ≠ "NULL" ∧
    serializeValue Value.vnone ≠ "\x27None\x27" ∧
    insertStmt "stops_maas" [Value.vstr "1234", Value.vnone] =
      "INSERT INTO stops_maas VALUES (\x271234\x27, None);" :=
  nonstring_values_bare Value.vnone (fun _ h => Value.noConfusion h)
